import Mathlib

/-!
Verification of the mp3 firmware core against its specification.

The development shallowly embeds the two core components of the repository:

* the typed mailbox of `src/firmware/components/util/include/mailbox.hpp`
  (wire framing, send/receive over a bounded FIFO byte channel, visit
  dispatch), and
* the two task-lifecycle wrappers, `ActiveObject`
  (`src/firmware/components/util/active_object.cc` with its declaration in
  `include/component.hpp`) and `Component`
  (`src/firmware/components/util/component.cc`; the header declaring the
  `Component` class is not present in the tree, so the two members it
  alone defines — `is_running()` and `Component::kMaxComponentNameLength`
  — are modelled from the spec and marked as such).

Bytes are modelled as `Nat`; the one machine-integer width that matters
(the `uint8_t` wire tag) is made explicit with `% 256`.  The bounded byte
channel (the ESP-IDF ring buffer) is an external primitive of the design:
it is modelled as a FIFO of committed records with byte accounting, with
"reserve succeeds" meaning the framed record fits into the remaining
capacity, and blocking-with-timeout collapsing to that immediate check.
-/

/-- Wire header written in front of every record:
`struct MessageHeader { uint8_t type_id; size_t payload_size; }`. -/
structure MessageHeader where
  type_id : Nat
  payload_size : Nat
deriving Repr, DecidableEq

/-- One framed record in the channel: header followed by payload bytes. -/
structure Record where
  header : MessageHeader
  payload : List Nat
deriving Repr, DecidableEq

/-- Description of one declared message type of a mailbox: either
Serializable (`serial = true`, with its own `serialize`/`deserialize` and
fixed `serialized_size`) or trivially copyable (`serial = false`, whose
values are identified with their `sizeof`-byte object representation). -/
structure TypeDesc where
  serial : Bool
  size : Nat
  encode : List Nat → List Nat
  decode : List Nat → List Nat

/-- Reserved tag for raw binary blob messages (`kBlobTypeId = 255`). -/
def kBlobTypeId : Nat := 255

/-- Encoded size of a message type: `M::serialized_size()` for
Serializable types, `sizeof(M)` for trivially copyable ones
(`Mailbox::get_payload_size`). -/
def get_payload_size (t : TypeDesc) : Nat := t.size

/-- Payload bytes written by `send_message`: `msg.serialize(...)` for a
Serializable type, a raw `memcpy` of the object representation (the value
itself in this model) for a trivially copyable type. -/
def writePayload (t : TypeDesc) (v : List Nat) : List Nat :=
  if t.serial then t.encode v else v

/-- Value handed to the visitor by `RecvHandle::visit`:
`M::deserialize(payload)` for a Serializable type, an in-place
reinterpretation of the payload bytes for a trivially copyable type. -/
def readValue (t : TypeDesc) (payload : List Nat) : List Nat :=
  if t.serial then t.decode payload else payload

/-- The bounded byte channel (ESP-IDF ring buffer): a fixed byte capacity
and the FIFO of committed records. -/
structure Channel where
  capacity : Nat
  items : List Record

/-- Bytes currently held by committed records, each accounted as header
plus declared payload size (`headerSize` is `sizeof(MessageHeader)`). -/
def Channel.used (headerSize : Nat) (c : Channel) : Nat :=
  (c.items.map (fun r => headerSize + r.header.payload_size)).sum

/-- Reservation check of the channel: `xRingbufferSendAcquire` of
`n` bytes succeeds exactly when the bytes fit into the free space. -/
def Channel.canAcquire (headerSize : Nat) (c : Channel) (n : Nat) : Bool :=
  c.used headerSize + n ≤ c.capacity

/-- A typed mailbox: its declared type list, the (alignment-dependent)
size of the wire header, and the underlying channel — `none` models
`xRingbufferCreate` having returned a null handle at construction. -/
structure Mailbox where
  types : List TypeDesc
  headerSize : Nat
  chan : Option Channel

/-- Embedding of `Mailbox::send_message` for the declared type at
position `i` of the type list.  Mirrors the source: a null channel handle
fails immediately; otherwise `header + payload` bytes are reserved
(failure to reserve returns `false` with the mailbox unchanged); on
success the header (tag `i` as a `uint8_t`, declared payload size) and
the encoded payload are written and the record is committed
unconditionally.  A position outside the type list is unrepresentable in
the source (rejected by the compile-time requires-clause) and is modelled
as a failed send. -/
def send_message (mb : Mailbox) (i : Nat) (v : List Nat) : Bool × Mailbox :=
  match mb.chan with
  | none => (false, mb)
  | some c =>
    match mb.types[i]? with
    | none => (false, mb)
    | some t =>
      let payload_size := get_payload_size t
      let total := mb.headerSize + payload_size
      if c.canAcquire mb.headerSize total then
        let r : Record := ⟨⟨i % 256, payload_size⟩, writePayload t v⟩
        (true, { mb with chan := some ⟨c.capacity, c.items ++ [r]⟩ })
      else
        (false, mb)

/-- Embedding of `Mailbox::acquire_send_handle` composed with the
caller's write into the exposed payload span and the RAII commit of the
returned `SendHandle` destructor.  A null channel handle fails; otherwise
`header + payload_size` bytes are reserved, the blob header (tag 255) is
written, the caller fills the payload, and destruction commits. -/
def acquire_send_handle (mb : Mailbox) (payload : List Nat) : Bool × Mailbox :=
  match mb.chan with
  | none => (false, mb)
  | some c =>
    let total := mb.headerSize + payload.length
    if c.canAcquire mb.headerSize total then
      let r : Record := ⟨⟨kBlobTypeId, payload.length⟩, payload⟩
      (true, { mb with chan := some ⟨c.capacity, c.items ++ [r]⟩ })
    else
      (false, mb)

/-- Outcome of `Mailbox::acquire_recv_handle`.  `crash` records that the
source reaches `xRingbufferReceive(handle_, ...)` with a null handle —
unlike `send_message` and `acquire_send_handle`, the function performs no
null check, and the channel primitive asserts on a null handle
(`configASSERT`), aborting the process. -/
inductive RecvOutcome where
  | crash
  | timeout
  | received (r : Record) (mb : Mailbox)

/-- Embedding of `Mailbox::acquire_recv_handle`: the next committed
record in FIFO order, or `timeout` when none arrives in time, or `crash`
when the mailbox holds a null channel handle (no null check in the
source). -/
def acquire_recv_handle (mb : Mailbox) : RecvOutcome :=
  match mb.chan with
  | none => RecvOutcome.crash
  | some c =>
    match c.items with
    | [] => RecvOutcome.timeout
    | r :: rest => RecvOutcome.received r { mb with chan := some ⟨c.capacity, rest⟩ }

/-- Which handler a call to `RecvHandle::visit` invokes, and with what
argument: the blob handler with the raw payload bytes, the handler of the
declared type at position `idx` with the decoded value, or no handler at
all (the compile-time recursion of `visit_impl` falling off the end of
the type list). -/
inductive VisitResult where
  | blob (payload : List Nat)
  | typed (idx : Nat) (value : List Nat)
  | nothing
deriving Repr, DecidableEq

/-- Embedding of the recursive `RecvHandle::visit_impl<Index>`: linear
scan of the declared type list comparing the header tag against each
position. -/
def visit_impl : List TypeDesc → Nat → MessageHeader → List Nat → VisitResult
  | [], _, _, _ => VisitResult.nothing
  | t :: rest, idx, h, payload =>
    if h.type_id = idx then VisitResult.typed idx (readValue t payload)
    else visit_impl rest (idx + 1) h payload

/-- Embedding of `RecvHandle::visit`: the blob handler when the tag is
the reserved blob tag, otherwise the scan over the declared types. -/
def visit (types : List TypeDesc) (r : Record) : VisitResult :=
  if r.header.type_id = kBlobTypeId then VisitResult.blob r.payload
  else visit_impl types 0 r.header r.payload

/-- The scan of `visit_impl` started at offset `k` resolves a tag lying
in the scanned range to the unique matching position. -/
theorem visit_impl_eq_typed (ts : List TypeDesc) (k : Nat) (h : MessageHeader)
    (payload : List Nat) (t : TypeDesc) (hk : k ≤ h.type_id)
    (ht : ts[h.type_id - k]? = some t) :
    visit_impl ts k h payload = VisitResult.typed h.type_id (readValue t payload) := by
  induction ts generalizing k with
  | nil => simp at ht
  | cons hd tl ih =>
    by_cases hEq : h.type_id = k
    · subst hEq
      simp at ht
      simp [visit_impl, ht]
    · have hsub : h.type_id - k = (h.type_id - (k + 1)) + 1 := by omega
      rw [hsub] at ht
      simp at ht
      simp only [visit_impl]
      rw [if_neg hEq]
      exact ih (k + 1) (by omega) ht

/-- Maximum stored name length of `ActiveObject`
(`ActiveObject::kMaxComponentNameLength = 32`, including the
terminator). -/
def AO.kMaxComponentNameLength : Nat := 32

/-- Name array written by the `ActiveObject` constructor: the zero
initialised 32-byte array, the first `min(name.size(), 31)` characters
copied in, and a terminating zero stored right after them (the remaining
bytes keep their zero initialisation). -/
def AO.trimName (name : List Nat) : List Nat :=
  let copy_length := min name.length (AO.kMaxComponentNameLength - 1)
  name.take copy_length ++ List.replicate (AO.kMaxComponentNameLength - copy_length) 0

/-- State of one `ActiveObject`: presence of the kernel-thread handle
(`task_handle_`), presence of the join semaphore handle
(`join_sem_handle_`), whether the binary semaphore has been given,
the `done_` flag, the number of live kernel threads the object has
spawned (a ghost counter for the start-guard property), and the stored
name array. -/
structure AOState where
  task_handle : Bool
  join_sem : Bool
  sem_given : Bool
  done : Bool
  threads : Nat
  name : List Nat
deriving Repr, DecidableEq

/-- A freshly constructed `ActiveObject` with the given name. -/
def AOState.mk0 (name : List Nat) : AOState :=
  ⟨false, false, false, false, 0, AO.trimName name⟩

/-- Embedding of `ActiveObject::get_name`: `std::string_view` of the
stored character array, i.e. the bytes up to the first zero. -/
def AO.get_name (s : AOState) : List Nat :=
  s.name.takeWhile (fun c => c ≠ 0)

/-- Embedding of `ActiveObject::start`, run by the owning thread.  The
two external creation results are inputs: `semOk` the result of
`xSemaphoreCreateBinaryStatic`, `threadOk` the result of
`xTaskCreatePinnedToCore`.  Mirrors the source: a present handle fails
immediately with nothing written; otherwise the semaphore handle slot is
rewritten first, a failed semaphore creation fails, a failed thread
creation fails with the task handle left absent, and success records the
handle and the new live thread. -/
def AO.start (s : AOState) (semOk threadOk : Bool) : Bool × AOState :=
  if s.task_handle then (false, s)
  else
    let s1 := { s with join_sem := semOk }
    if semOk = false then (false, s1)
    else if threadOk then (true, { s1 with task_handle := true, threads := s1.threads + 1 })
    else (false, s1)

/-- One iteration of the `ActiveObject` task loop body, run by the task
thread: `task()` (which may call `mark_as_done`, recorded by
`taskSetsDone`), then the watchdog reset and the periodic delay — none
of which touch any other lifecycle field. -/
def AO.loopIter (s : AOState) (taskSetsDone : Bool) : AOState :=
  { s with done := s.done || taskSetsDone }

/-- The loop-continuation condition of the `ActiveObject` task wrapper,
evaluated once at the top of each iteration: `while (!self->done_.load())`. -/
def AO.loopCond (s : AOState) : Bool := !s.done

/-- The `ActiveObject` task-wrapper loop, run by the task thread with one
schedule entry per available iteration: the condition is evaluated once
per iteration and the body runs only when it holds. -/
def AO.runLoop (s : AOState) : List Bool → AOState
  | [] => s
  | b :: rest => if s.done then s else AO.runLoop (AO.loopIter s b) rest

/-- Exit path of the `ActiveObject` task wrapper, run by the task thread
after the loop: give the join semaphore when its handle exists, then
deregister from the watchdog and `vTaskDelete(nullptr)` — the task
handle slot is not touched. -/
def AO.taskExit (s : AOState) : AOState :=
  { s with sem_given := s.sem_given || s.join_sem, threads := s.threads - 1 }

/-- Embedding of `ActiveObject::mark_as_done`: store `true` into the
`done_` flag. -/
def AO.mark_as_done (s : AOState) : AOState := { s with done := true }

/-- Embedding of `ActiveObject::join`, run by the owning thread.
Returns `none` when the call is still blocked in its bounded-wait retry
loop (the semaphore has not been given), otherwise the returned Boolean
and the state after the call: absent semaphore handle or absent task
handle fail immediately; a given semaphore is taken and both guard slots
are cleared. -/
def AO.join (s : AOState) : Option (Bool × AOState) :=
  if s.join_sem = false ∨ s.task_handle = false then some (false, s)
  else if s.sem_given then
    some (true, { s with sem_given := false, task_handle := false, join_sem := false })
  else none

/-- The operations the owning (non-task) side of an `ActiveObject` can
perform: `start`, `join`, and the destructor's `mark_as_done` (the
destructor body runs on the thread destroying the object, never on the
task thread). -/
inductive AO.OwnerOp where
  | startOp (semOk threadOk : Bool)
  | joinOp
  | destructorMarkOp
deriving Repr, DecidableEq

/-- State reached after the owning side performs one operation (a
`join` that is still blocked leaves the state unchanged so far). -/
def AO.applyOwner : AO.OwnerOp → AOState → AOState
  | AO.OwnerOp.startOp semOk threadOk, s => (AO.start s semOk threadOk).2
  | AO.OwnerOp.joinOp, s => ((AO.join s).getD (false, s)).2
  | AO.OwnerOp.destructorMarkOp, s => AO.mark_as_done s

/-- Modelled from the spec: `Component::kMaxComponentNameLength`, a
member of the missing `Component` class header — the spec's
bounded-length display name, identical to the 32 of the sibling wrapper
whose declaration is present. -/
def Comp.kMaxComponentNameLength : Nat := 32

/-- Name array written by the `Component` constructor (the constructor
body in `component.cc` is character-for-character the `ActiveObject`
one). -/
def Comp.trimName (name : List Nat) : List Nat :=
  let copy_length := min name.length (Comp.kMaxComponentNameLength - 1)
  name.take copy_length ++ List.replicate (Comp.kMaxComponentNameLength - copy_length) 0

/-- State of one `Component`: handle and semaphore slots as for
`AOState`, the `should_terminate_` stop flag set by `request_stop`, the
spec-modelled done flag, the construction-time `detached_` flag, the
ghost live-thread counter and the stored name array. -/
structure CompState where
  task_handle : Bool
  join_sem : Bool
  sem_given : Bool
  should_terminate : Bool
  done : Bool
  detached : Bool
  threads : Nat
  name : List Nat
deriving Repr, DecidableEq

/-- A freshly constructed `Component`. -/
def CompState.mk0 (name : List Nat) (detached : Bool) : CompState :=
  ⟨false, false, false, false, false, detached, 0, Comp.trimName name⟩

/-- Embedding of `Component::get_name`. -/
def Comp.get_name (s : CompState) : List Nat :=
  s.name.takeWhile (fun c => c ≠ 0)

/-- Modelled from the spec: `Component::is_running()`, declared only in
the missing `Component` header — per the spec the loop runs while
neither "stop requested" nor "task self-reports done" holds. -/
def Comp.is_running (s : CompState) : Bool := !(s.should_terminate || s.done)

/-- Embedding of `Component::request_stop`: store `true` into the stop
flag; callable from any thread, never blocks. -/
def Comp.request_stop (s : CompState) : CompState := { s with should_terminate := true }

/-- Embedding of `Component::start`, run by the owning thread.  Mirrors
the source: a present handle fails immediately; otherwise the semaphore
slot is rewritten (its creation result is not checked), and thread
creation either records the handle and the live thread or fails with the
handle left absent. -/
def Comp.start (s : CompState) (semOk threadOk : Bool) : Bool × CompState :=
  if s.task_handle then (false, s)
  else
    let s1 := { s with join_sem := semOk }
    if threadOk then (true, { s1 with task_handle := true, threads := s1.threads + 1 })
    else (false, s1)

/-- One iteration of the `Component` task loop body, run by the task
thread (`task_impl()` plus the watchdog reset and the periodic delay);
the task may self-report completion through the spec-modelled done
flag. -/
def Comp.loopIter (s : CompState) (taskSetsDone : Bool) : CompState :=
  { s with done := s.done || taskSetsDone }

/-- The loop-continuation condition of the `Component` task wrapper,
evaluated once at the top of each iteration:
`while (self->is_running())`. -/
def Comp.loopCond (s : CompState) : Bool := Comp.is_running s

/-- The `Component` task-wrapper loop, with one schedule entry per
available iteration. -/
def Comp.runLoop (s : CompState) : List Bool → CompState
  | [] => s
  | b :: rest =>
    if Comp.is_running s then Comp.runLoop (Comp.loopIter s b) rest else s

/-- First half of the `Component` task-wrapper exit path, run by the
task thread: give the join semaphore when its handle exists. -/
def Comp.taskSignal (s : CompState) : CompState :=
  { s with sem_given := s.sem_given || s.join_sem }

/-- Second half of the `Component` task-wrapper exit path, run by the
task thread: `self->task_handle_ = std::nullopt;` followed by
`vTaskDelete(nullptr)` — the exiting task thread itself clears the
shared handle slot. -/
def Comp.taskClearHandle (s : CompState) : CompState :=
  { s with task_handle := false, threads := s.threads - 1 }

/-- Embedding of `Component::join`, run by the owning thread.  Returns
`none` when the call is blocked forever in `xSemaphoreTake(...,
portMAX_DELAY)`.  An absent task handle or a detached component fails
immediately; with a semaphore handle present the semaphore is taken and
the call returns `true` without clearing any guard slot; without one it
returns `false`. -/
def Comp.join (s : CompState) : Option (Bool × CompState) :=
  if s.task_handle = false ∨ s.detached then some (false, s)
  else if s.join_sem then
    if s.sem_given then some (true, { s with sem_given := false }) else none
  else some (false, s)

/-- Index bound extracted from a successful type-list lookup. -/
theorem getElem?_lt_length {ts : List TypeDesc} {i : Nat} {t : TypeDesc}
    (h : ts[i]? = some t) : i < ts.length := by
  by_contra hge
  rw [List.getElem?_eq_none (by omega)] at h
  exact Option.noConfusion h

/-- Sample trivially copyable message type used by concrete witnesses. -/
def tFlat : TypeDesc := ⟨false, 4, id, id⟩

/-- Sample Serializable message type used by concrete witnesses: a
two-field value serialised with an offset applied per byte. -/
def tSer : TypeDesc :=
  ⟨true, 2, fun v => v.map (fun x => (x + 1) % 256), fun b => b.map (fun x => x + 10)⟩

/-- C1: for every declared message type (position `i` of the type list)
and every value `v`, a successful `send_message(v)` followed by
`acquire_recv_handle()` and `visit` on the resulting record invokes the
handler of exactly that type with the value `v` itself for a trivially
copyable type (byte-identical) and `deserialize(serialize(v))` for a
Serializable type (field-equality through the codec). -/
theorem C1_round_trip (types : List TypeDesc) (headerSize cap i : Nat) (t : TypeDesc)
    (v : List Nat) (hti : types[i]? = some t) (hcount : types.length ≤ 255)
    (hfit : headerSize + t.size ≤ cap) :
    ∃ r mb2,
      send_message ⟨types, headerSize, some ⟨cap, []⟩⟩ i v =
        (true, ⟨types, headerSize, some ⟨cap, [r]⟩⟩) ∧
      acquire_recv_handle ⟨types, headerSize, some ⟨cap, [r]⟩⟩ =
        RecvOutcome.received r mb2 ∧
      visit types r = VisitResult.typed i
        (if t.serial then t.decode (t.encode v) else v) := by
  have hi : i < types.length := getElem?_lt_length hti
  have hmod : i % 256 = i := Nat.mod_eq_of_lt (by omega)
  refine ⟨⟨⟨i % 256, t.size⟩, writePayload t v⟩, ⟨types, headerSize, some ⟨cap, []⟩⟩, ?_, ?_, ?_⟩
  · simp [send_message, hti, Channel.canAcquire, Channel.used, get_payload_size, hfit]
  · simp [acquire_recv_handle]
  · have hne : i % 256 ≠ kBlobTypeId := by
      rw [hmod]; intro hcontra; rw [kBlobTypeId] at hcontra; omega
    rw [visit]
    simp only [hne, if_neg, reduceIte]
    have := visit_impl_eq_typed types 0 ⟨i % 256, t.size⟩ (writePayload t v) t
      (Nat.zero_le _) (by rw [hmod]; simpa using hti)
    rw [this, hmod]
    rcases hser : t.serial with hf | htr
    · simp [readValue, writePayload, hser]
    · simp [readValue, writePayload, hser]

/-- C1 witness: the round trip evaluated for the flat sample type at
position 0 of the list `[tFlat, tSer]`, value `[7, 9, 2, 5]`, header
size 8, capacity 100. -/
theorem C1_round_trip_witness :
    ([tFlat, tSer][0]? = some tFlat ∧ [tFlat, tSer].length ≤ 255 ∧ 8 + tFlat.size ≤ 100) ∧
    ∃ r mb2,
      send_message ⟨[tFlat, tSer], 8, some ⟨100, []⟩⟩ 0 [7, 9, 2, 5] =
        (true, ⟨[tFlat, tSer], 8, some ⟨100, [r]⟩⟩) ∧
      acquire_recv_handle ⟨[tFlat, tSer], 8, some ⟨100, [r]⟩⟩ =
        RecvOutcome.received r mb2 ∧
      visit [tFlat, tSer] r = VisitResult.typed 0
        (if tFlat.serial then tFlat.decode (tFlat.encode [7, 9, 2, 5]) else [7, 9, 2, 5]) :=
  ⟨⟨rfl, by decide, by decide⟩,
    C1_round_trip [tFlat, tSer] 8 100 0 tFlat [7, 9, 2, 5] rfl (by decide) (by decide)⟩

/-- C2: on a mailbox whose ring-buffer creation returned a null handle,
`send_message` and `acquire_send_handle` fail safely (they check the
handle), but `acquire_recv_handle` performs no such check and passes the
null handle straight to `xRingbufferReceive`, which asserts on a null
ring buffer — the claim's "every subsequent operation fails safely" is
contradicted by the receive path. -/
theorem C2_null_handle_operations :
    send_message ⟨[], 8, none⟩ 0 [1] = (false, ⟨[], 8, none⟩) ∧
    acquire_send_handle ⟨[], 8, none⟩ [1, 2] = (false, ⟨[], 8, none⟩) ∧
    acquire_recv_handle ⟨[], 8, none⟩ = RecvOutcome.crash :=
  ⟨rfl, rfl, rfl⟩

/-- C7: `send_message` is atomic on failure and commits unconditionally
on success.  When the reservation of `header + encoded_size` bytes does
not fit the channel's free space (the blocking wait degenerating to this
check at timeout expiry), the call returns `false` with the mailbox
bit-for-bit unchanged — nothing a receive could observe; when the
reservation fits, the header and encoded payload are written and the
record is committed unconditionally (no reserved slot survives the
call); a null channel handle also fails with no effect. -/
theorem C7_send_atomicity (types : List TypeDesc) (headerSize cap : Nat)
    (items : List Record) (i : Nat) (t : TypeDesc) (v : List Nat)
    (hti : types[i]? = some t) :
    (cap < Channel.used headerSize ⟨cap, items⟩ + (headerSize + t.size) →
      send_message ⟨types, headerSize, some ⟨cap, items⟩⟩ i v =
        (false, ⟨types, headerSize, some ⟨cap, items⟩⟩)) ∧
    (Channel.used headerSize ⟨cap, items⟩ + (headerSize + t.size) ≤ cap →
      send_message ⟨types, headerSize, some ⟨cap, items⟩⟩ i v =
        (true, ⟨types, headerSize,
          some ⟨cap, items ++ [⟨⟨i % 256, t.size⟩, writePayload t v⟩]⟩⟩)) ∧
    send_message ⟨types, headerSize, none⟩ i v = (false, ⟨types, headerSize, none⟩) := by
  refine ⟨?_, ?_, rfl⟩
  · intro hover
    simp [send_message, hti, Channel.canAcquire, get_payload_size, Nat.not_le.mpr hover]
  · intro hfit
    simp [send_message, hti, Channel.canAcquire, get_payload_size, hfit]

/-- C7 witness: backpressure at a capacity holding exactly two records.
With header size 4 and the 4-byte flat sample type, each record takes 8
bytes; on a 16-byte channel already holding two committed records the
third send fails with the mailbox unchanged, while into the empty
channel the same send commits. -/
theorem C7_send_atomicity_witness :
    ([tFlat][0]? = some tFlat ∧
      16 < Channel.used 4 ⟨16, [⟨⟨0, 4⟩, [1, 2, 3, 4]⟩, ⟨⟨0, 4⟩, [5, 6, 7, 8]⟩]⟩ +
        (4 + tFlat.size) ∧
      Channel.used 4 ⟨16, []⟩ + (4 + tFlat.size) ≤ 16) ∧
    send_message ⟨[tFlat], 4, some ⟨16, [⟨⟨0, 4⟩, [1, 2, 3, 4]⟩, ⟨⟨0, 4⟩, [5, 6, 7, 8]⟩]⟩⟩
        0 [9, 9, 9, 9] =
      (false, ⟨[tFlat], 4, some ⟨16, [⟨⟨0, 4⟩, [1, 2, 3, 4]⟩, ⟨⟨0, 4⟩, [5, 6, 7, 8]⟩]⟩⟩) ∧
    send_message ⟨[tFlat], 4, some ⟨16, []⟩⟩ 0 [9, 9, 9, 9] =
      (true, ⟨[tFlat], 4, some ⟨16, [⟨⟨0 % 256, tFlat.size⟩, writePayload tFlat [9, 9, 9, 9]⟩]⟩⟩) :=
  ⟨⟨rfl, by decide, by decide⟩,
    (C7_send_atomicity [tFlat] 4 16 [⟨⟨0, 4⟩, [1, 2, 3, 4]⟩, ⟨⟨0, 4⟩, [5, 6, 7, 8]⟩]
      0 tFlat [9, 9, 9, 9] rfl).1 (by decide),
    (C7_send_atomicity [tFlat] 4 16 [] 0 tFlat [9, 9, 9, 9] rfl).2.1 (by decide)⟩

/-- Dispatch lemma: a record whose tag is the `uint8_t` image of a
declared position `i` (with at most 255 declared types, as imposed by
the one-byte tag space next to the reserved blob tag) is dispatched by
`visit` to exactly the handler of the type at position `i`, with the
decoded value. -/
theorem visit_tagged (types : List TypeDesc) (i ps : Nat) (t : TypeDesc)
    (payload : List Nat) (hti : types[i]? = some t) (hcount : types.length ≤ 255) :
    visit types ⟨⟨i % 256, ps⟩, payload⟩ = VisitResult.typed i (readValue t payload) := by
  have hi : i < types.length := getElem?_lt_length hti
  have hmod : i % 256 = i := Nat.mod_eq_of_lt (by omega)
  have hne : i % 256 ≠ kBlobTypeId := by
    rw [hmod]; intro hcontra; rw [kBlobTypeId] at hcontra; omega
  rw [visit]
  simp only [hne, if_neg, reduceIte]
  have := visit_impl_eq_typed types 0 ⟨i % 256, ps⟩ payload t
    (Nat.zero_le _) (by rw [hmod]; simpa using hti)
  rw [this, hmod]

/-- C8: every record produced by `send_message` or `acquire_send_handle`
is dispatched by `visit` to exactly one handler — the blob handler when
the header tag is the reserved raw-blob tag 255, and otherwise the
handler of the unique declared type whose position equals the tag (the
position the producing send used).  `visit` returning that single
`VisitResult` constructor is the model's statement that no other
handler runs in the call. -/
theorem C8_exactly_one_handler (types : List TypeDesc) (headerSize cap : Nat)
    (items : List Record) (hcount : types.length ≤ 255) :
    (∀ i t v mb2, types[i]? = some t →
      send_message ⟨types, headerSize, some ⟨cap, items⟩⟩ i v = (true, mb2) →
      ∃ c2, mb2.chan = some c2 ∧
        c2.items.getLast? = some ⟨⟨i % 256, get_payload_size t⟩, writePayload t v⟩ ∧
        visit types ⟨⟨i % 256, get_payload_size t⟩, writePayload t v⟩ =
          VisitResult.typed i (readValue t (writePayload t v))) ∧
    (∀ p mb2, acquire_send_handle ⟨types, headerSize, some ⟨cap, items⟩⟩ p = (true, mb2) →
      ∃ c2, mb2.chan = some c2 ∧
        c2.items.getLast? = some ⟨⟨kBlobTypeId, p.length⟩, p⟩ ∧
        visit types ⟨⟨kBlobTypeId, p.length⟩, p⟩ = VisitResult.blob p) := by
  constructor
  · intro i t v mb2 hti hsend
    simp only [send_message, hti, get_payload_size] at hsend
    split at hsend
    · rcases Prod.mk.injEq .. ▸ hsend with ⟨-, hmb⟩
      refine ⟨⟨cap, items ++ [⟨⟨i % 256, t.size⟩, writePayload t v⟩]⟩, ?_, ?_, ?_⟩
      · rw [← hmb]
      · simp [get_payload_size]
      · exact visit_tagged types i t.size t (writePayload t v) hti hcount
    · simp at hsend
  · intro p mb2 hacq
    simp only [acquire_send_handle] at hacq
    split at hacq
    · rcases Prod.mk.injEq .. ▸ hacq with ⟨-, hmb⟩
      refine ⟨⟨cap, items ++ [⟨⟨kBlobTypeId, p.length⟩, p⟩]⟩, ?_, ?_, ?_⟩
      · rw [← hmb]
      · simp
      · simp [visit]
    · simp at hacq

/-- C8 witness: dispatch evaluated for a serialized send of `[3, 4]` as
the type at position 1 of `[tFlat, tSer]` and for an 8-byte blob, both
into an empty 64-byte channel with header size 8. -/
theorem C8_exactly_one_handler_witness :
    ([tFlat, tSer].length ≤ 255) ∧
    (∃ c2, (⟨[tFlat, tSer], 8, some ⟨64, [⟨⟨1 % 256, get_payload_size tSer⟩,
          writePayload tSer [3, 4]⟩]⟩⟩ : Mailbox).chan = some c2 ∧
      c2.items.getLast? = some ⟨⟨1 % 256, get_payload_size tSer⟩, writePayload tSer [3, 4]⟩ ∧
      visit [tFlat, tSer] ⟨⟨1 % 256, get_payload_size tSer⟩, writePayload tSer [3, 4]⟩ =
        VisitResult.typed 1 (readValue tSer (writePayload tSer [3, 4]))) ∧
    (∃ c2, (⟨[tFlat, tSer], 8, some ⟨64, [⟨⟨kBlobTypeId, 3⟩, [7, 8, 9]⟩]⟩⟩ : Mailbox).chan =
        some c2 ∧
      c2.items.getLast? = some ⟨⟨kBlobTypeId, ([7, 8, 9] : List Nat).length⟩, [7, 8, 9]⟩ ∧
      visit [tFlat, tSer] ⟨⟨kBlobTypeId, ([7, 8, 9] : List Nat).length⟩, [7, 8, 9]⟩ =
        VisitResult.blob [7, 8, 9]) :=
  ⟨by decide,
    (C8_exactly_one_handler [tFlat, tSer] 8 64 [] (by decide)).1 1 tSer [3, 4]
      ⟨[tFlat, tSer], 8, some ⟨64, [⟨⟨1 % 256, get_payload_size tSer⟩,
        writePayload tSer [3, 4]⟩]⟩⟩ rfl rfl,
    (C8_exactly_one_handler [tFlat, tSer] 8 64 [] (by decide)).2 [7, 8, 9]
      ⟨[tFlat, tSer], 8, some ⟨64, [⟨⟨kBlobTypeId, 3⟩, [7, 8, 9]⟩]⟩⟩ rfl⟩

/-- C3 counterexample: the claim requires the done flag to be settable
only by the task's own thread, but `~ActiveObject` — which runs on the
owning thread, never the task thread — calls `mark_as_done`, an
owner-side write that sets done and thereby terminates the loop (whose
condition tests that single flag only, there being no separate stop
flag in `ActiveObject`). -/
theorem C3_counterexample :
    (AOState.mk0 []).done = false ∧
    (AO.applyOwner AO.OwnerOp.destructorMarkOp (AOState.mk0 [])).done = true ∧
    AO.loopCond (AO.applyOwner AO.OwnerOp.destructorMarkOp (AOState.mk0 [])) = false := by
  decide

/-- C3 amended: each wrapper's loop evaluates its termination condition
exactly once per iteration.  For `ActiveObject` the condition is the
single done flag — the loop exits exactly when done is set, and done is
settable by any thread (in particular the owning thread's destructor
sets it through `mark_as_done`).  For `Component` the condition is
`is_running()`, modelled from the spec as the negation of "stop
requested or task self-reports done"; the stop flag is settable by any
thread through `request_stop`. -/
theorem C3_loop_termination (s1 s2 : AOState) (sc1 sc2 : CompState) (b : Bool)
    (sched : List Bool) (h1 : s1.done = true) (h2 : s2.done = false)
    (hc1 : Comp.is_running sc1 = false) (hc2 : Comp.is_running sc2 = true) :
    AO.loopCond s1 = false ∧
    AO.loopCond s2 = true ∧
    AO.runLoop s1 (b :: sched) = s1 ∧
    AO.runLoop s2 (b :: sched) = AO.runLoop (AO.loopIter s2 b) sched ∧
    (AO.applyOwner AO.OwnerOp.destructorMarkOp s2).done = true ∧
    (Comp.request_stop sc2).should_terminate = true ∧
    Comp.loopCond sc1 = false ∧
    Comp.loopCond sc2 = true ∧
    Comp.is_running sc2 = !(sc2.should_terminate || sc2.done) ∧
    Comp.runLoop sc1 (b :: sched) = sc1 ∧
    Comp.runLoop sc2 (b :: sched) = Comp.runLoop (Comp.loopIter sc2 b) sched := by
  refine ⟨?_, ?_, ?_, ?_, ?_, ?_, ?_, ?_, ?_, ?_, ?_⟩
  · simp [AO.loopCond, h1]
  · simp [AO.loopCond, h2]
  · simp [AO.runLoop, h1]
  · simp [AO.runLoop, h2]
  · simp [AO.applyOwner, AO.mark_as_done]
  · simp [Comp.request_stop]
  · simp [Comp.loopCond, hc1]
  · simp [Comp.loopCond, hc2]
  · simp [Comp.is_running]
  · simp [Comp.runLoop, hc1]
  · simp [Comp.runLoop, hc2]

/-- C3 witness: the amended loop-termination facts evaluated on
concrete states — a done and a fresh `ActiveObject`, a stopped and a
fresh `Component`. -/
theorem C3_loop_termination_witness :
    ((AO.mark_as_done (AOState.mk0 [])).done = true ∧ (AOState.mk0 []).done = false ∧
      Comp.is_running (Comp.request_stop (CompState.mk0 [] false)) = false ∧
      Comp.is_running (CompState.mk0 [] false) = true) ∧
    (AO.loopCond (AO.mark_as_done (AOState.mk0 [])) = false ∧
    AO.loopCond (AOState.mk0 []) = true ∧
    AO.runLoop (AO.mark_as_done (AOState.mk0 [])) (true :: []) =
      AO.mark_as_done (AOState.mk0 []) ∧
    AO.runLoop (AOState.mk0 []) (true :: []) =
      AO.runLoop (AO.loopIter (AOState.mk0 []) true) [] ∧
    (AO.applyOwner AO.OwnerOp.destructorMarkOp (AOState.mk0 [])).done = true ∧
    (Comp.request_stop (CompState.mk0 [] false)).should_terminate = true ∧
    Comp.loopCond (Comp.request_stop (CompState.mk0 [] false)) = false ∧
    Comp.loopCond (CompState.mk0 [] false) = true ∧
    Comp.is_running (CompState.mk0 [] false) =
      !((CompState.mk0 [] false).should_terminate || (CompState.mk0 [] false).done) ∧
    Comp.runLoop (Comp.request_stop (CompState.mk0 [] false)) (true :: []) =
      Comp.request_stop (CompState.mk0 [] false) ∧
    Comp.runLoop (CompState.mk0 [] false) (true :: []) =
      Comp.runLoop (Comp.loopIter (CompState.mk0 [] false) true) []) :=
  ⟨⟨by decide, by decide, by decide, by decide⟩,
    C3_loop_termination (AO.mark_as_done (AOState.mk0 [])) (AOState.mk0 [])
      (Comp.request_stop (CompState.mk0 [] false)) (CompState.mk0 [] false) true []
      (by decide) (by decide) (by decide) (by decide)⟩

/-- A concrete `Component` whose thread has run to completion: started
successfully, stop requested, loop exited, and the exiting task thread
has given the join semaphore and performed its final clear of the task
handle. -/
def compFinished : CompState :=
  Comp.taskClearHandle (Comp.taskSignal
    (Comp.runLoop (Comp.request_stop (Comp.start (CompState.mk0 [] false) true true).2) []))

/-- C4 counterexample: on a `Component` whose thread has finished (zero
live threads, handle cleared by the exiting thread itself), the FIRST
call to `join()` already returns false — `Component::join` requires a
present task handle, which the exited thread has cleared — contradicting
the claim that the first join after thread completion returns true. -/
theorem C4_counterexample :
    compFinished.threads = 0 ∧
    Comp.join compFinished = some (false, compFinished) := by
  decide

/-- C4 amended: `ActiveObject::join` is idempotent exactly as claimed —
once the thread has finished, the first call returns true (clearing both
guard slots) and a second call returns false without blocking, and join
returns false immediately when the task never started or was already
joined.  For `Component`, join returns true only when entered while the
task handle is still present (between the semaphore give and the exiting
thread's final clear of the handle); once the thread has fully finished,
every call — including the first — returns false, and a second call
after a successful join returns false once that final clear has run;
a detached `Component` always returns false. -/
theorem C4_join_idempotent (s : AOState) (sc scd : CompState)
    (hjs : s.join_sem = true) (hh : s.task_handle = true) (hg : s.sem_given = true)
    (hch : sc.task_handle = true) (hcd : sc.detached = false)
    (hcs : sc.join_sem = true) (hcg : sc.sem_given = true)
    (hdd : scd.detached = true) :
    (∃ s2, AO.join s = some (true, s2) ∧ s2.task_handle = false ∧ s2.join_sem = false ∧
      AO.join s2 = some (false, s2)) ∧
    (∀ nm, AO.join (AOState.mk0 nm) = some (false, AOState.mk0 nm)) ∧
    (∃ sc2, Comp.join sc = some (true, sc2) ∧
      Comp.join (Comp.taskClearHandle sc2) =
        some (false, Comp.taskClearHandle sc2)) ∧
    Comp.join (Comp.taskClearHandle (Comp.taskSignal sc)) =
      some (false, Comp.taskClearHandle (Comp.taskSignal sc)) ∧
    Comp.join scd = some (false, scd) := by
  refine ⟨⟨{ s with sem_given := false, task_handle := false, join_sem := false },
      ?_, rfl, rfl, ?_⟩, ?_, ⟨{ sc with sem_given := false }, ?_, ?_⟩, ?_, ?_⟩
  · simp [AO.join, hjs, hh, hg]
  · simp [AO.join]
  · intro nm
    simp [AO.join, AOState.mk0]
  · simp [Comp.join, hch, hcd, hcs, hcg]
  · simp [Comp.join, Comp.taskClearHandle]
  · simp [Comp.join, Comp.taskClearHandle, Comp.taskSignal]
  · simp [Comp.join, hdd]

/-- C4 witness: the join behaviour evaluated on a finished
`ActiveObject`, a `Component` caught between the semaphore give and the
final handle clear, and a detached `Component`. -/
theorem C4_join_idempotent_witness :
    ((AO.taskExit (AO.loopIter (AO.start (AOState.mk0 []) true true).2 true)).join_sem = true ∧
      (AO.taskExit (AO.loopIter (AO.start (AOState.mk0 []) true true).2 true)).task_handle = true ∧
      (AO.taskExit (AO.loopIter (AO.start (AOState.mk0 []) true true).2 true)).sem_given = true ∧
      (Comp.taskSignal (Comp.request_stop (Comp.start (CompState.mk0 [] false) true true).2)).task_handle = true ∧
      (Comp.taskSignal (Comp.request_stop (Comp.start (CompState.mk0 [] false) true true).2)).detached = false ∧
      (Comp.taskSignal (Comp.request_stop (Comp.start (CompState.mk0 [] false) true true).2)).join_sem = true ∧
      (Comp.taskSignal (Comp.request_stop (Comp.start (CompState.mk0 [] false) true true).2)).sem_given = true ∧
      (CompState.mk0 [] true).detached = true) ∧
    ((∃ s2, AO.join (AO.taskExit (AO.loopIter (AO.start (AOState.mk0 []) true true).2 true)) =
        some (true, s2) ∧ s2.task_handle = false ∧ s2.join_sem = false ∧
        AO.join s2 = some (false, s2)) ∧
    (∀ nm, AO.join (AOState.mk0 nm) = some (false, AOState.mk0 nm)) ∧
    (∃ sc2, Comp.join (Comp.taskSignal (Comp.request_stop
        (Comp.start (CompState.mk0 [] false) true true).2)) = some (true, sc2) ∧
      Comp.join (Comp.taskClearHandle sc2) = some (false, Comp.taskClearHandle sc2)) ∧
    Comp.join (Comp.taskClearHandle (Comp.taskSignal (Comp.taskSignal (Comp.request_stop
        (Comp.start (CompState.mk0 [] false) true true).2)))) =
      some (false, Comp.taskClearHandle (Comp.taskSignal (Comp.taskSignal (Comp.request_stop
        (Comp.start (CompState.mk0 [] false) true true).2)))) ∧
    Comp.join (CompState.mk0 [] true) = some (false, CompState.mk0 [] true)) :=
  ⟨⟨by decide, by decide, by decide, by decide, by decide, by decide, by decide, by decide⟩,
    C4_join_idempotent (AO.taskExit (AO.loopIter (AO.start (AOState.mk0 []) true true).2 true))
      (Comp.taskSignal (Comp.request_stop (Comp.start (CompState.mk0 [] false) true true).2))
      (CompState.mk0 [] true)
      (by decide) (by decide) (by decide) (by decide) (by decide) (by decide) (by decide)
      (by decide)⟩

/-- C5 counterexample: on a fresh `ActiveObject`, a start whose kernel
thread creation fails does return false with the task handle left
absent, but it is not free of side effects — the join-semaphore slot,
rewritten before the creation attempt, has changed. -/
theorem C5_counterexample :
    (AO.start (AOState.mk0 []) true false).1 = false ∧
    (AO.start (AOState.mk0 []) true false).2.task_handle = false ∧
    (AOState.mk0 []).join_sem = false ∧
    (AO.start (AOState.mk0 []) true false).2.join_sem = true := by
  decide

/-- C5 amended: `start()` returns false when already running, with the
state completely unchanged; when the task is idle and semaphore or
thread creation fails it returns false with the task handle left absent
and every field unchanged except the join-semaphore slot, which the
failed call has already rewritten (with the creation result); a second
`start()` without an intervening stop and join fails and leaves exactly
the one running thread of the first call. -/
theorem C5_start_guard (sr si : AOState) (scr sci : CompState) (semF : Bool)
    (hr : sr.task_handle = true) (hi : si.task_handle = false)
    (hcr : scr.task_handle = true) (hci : sci.task_handle = false) :
    AO.start sr semF true = (false, sr) ∧
    AO.start si semF false = (false, { si with join_sem := semF }) ∧
    AO.start si false true = (false, { si with join_sem := false }) ∧
    (AO.start si true true).1 = true ∧
    (AO.start si true true).2.threads = si.threads + 1 ∧
    AO.start (AO.start si true true).2 true true = (false, (AO.start si true true).2) ∧
    Comp.start scr semF true = (false, scr) ∧
    Comp.start sci semF false = (false, { sci with join_sem := semF }) ∧
    (Comp.start sci true true).1 = true ∧
    (Comp.start sci true true).2.threads = sci.threads + 1 ∧
    Comp.start (Comp.start sci true true).2 true true =
      (false, (Comp.start sci true true).2) := by
  refine ⟨?_, ?_, ?_, ?_, ?_, ?_, ?_, ?_, ?_, ?_, ?_⟩
  · simp [AO.start, hr]
  · rcases hsem : semF with hf | ht <;> simp [AO.start, hi, hsem]
  · simp [AO.start, hi]
  · simp [AO.start, hi]
  · simp [AO.start, hi]
  · simp [AO.start, hi]
  · simp [Comp.start, hcr]
  · simp [Comp.start, hci]
  · simp [Comp.start, hci]
  · simp [Comp.start, hci]
  · simp [Comp.start, hci]

/-- C5 witness: the start-guard facts evaluated on a running and a
fresh instance of each wrapper, with a failing thread creation. -/
theorem C5_start_guard_witness :
    ((AO.start (AOState.mk0 []) true true).2.task_handle = true ∧
      (AOState.mk0 []).task_handle = false ∧
      (Comp.start (CompState.mk0 [] false) true true).2.task_handle = true ∧
      (CompState.mk0 [] false).task_handle = false) ∧
    (AO.start (AO.start (AOState.mk0 []) true true).2 true true =
      (false, (AO.start (AOState.mk0 []) true true).2) ∧
    AO.start (AOState.mk0 []) true false = (false, { AOState.mk0 [] with join_sem := true }) ∧
    AO.start (AOState.mk0 []) false true = (false, { AOState.mk0 [] with join_sem := false }) ∧
    (AO.start (AOState.mk0 []) true true).1 = true ∧
    (AO.start (AOState.mk0 []) true true).2.threads = (AOState.mk0 []).threads + 1 ∧
    AO.start (AO.start (AOState.mk0 []) true true).2 true true =
      (false, (AO.start (AOState.mk0 []) true true).2) ∧
    Comp.start (Comp.start (CompState.mk0 [] false) true true).2 true true =
      (false, (Comp.start (CompState.mk0 [] false) true true).2) ∧
    Comp.start (CompState.mk0 [] false) true false =
      (false, { CompState.mk0 [] false with join_sem := true }) ∧
    (Comp.start (CompState.mk0 [] false) true true).1 = true ∧
    (Comp.start (CompState.mk0 [] false) true true).2.threads =
      (CompState.mk0 [] false).threads + 1 ∧
    Comp.start (Comp.start (CompState.mk0 [] false) true true).2 true true =
      (false, (Comp.start (CompState.mk0 [] false) true true).2)) :=
  ⟨⟨by decide, by decide, by decide, by decide⟩,
    C5_start_guard (AO.start (AOState.mk0 []) true true).2 (AOState.mk0 [])
      (Comp.start (CompState.mk0 [] false) true true).2 (CompState.mk0 [] false) true
      (by decide) (by decide) (by decide) (by decide)⟩

/-- C6 counterexample: the exit path of the `Component` task wrapper —
run by the task's own thread — writes the kernel-thread handle slot,
clearing it from present to absent, contradicting the claim that the
task thread never writes the handle slot. -/
theorem C6_counterexample :
    (Comp.start (CompState.mk0 [] false) true true).2.task_handle = true ∧
    (Comp.taskClearHandle
      (Comp.start (CompState.mk0 [] false) true true).2).task_handle = false := by
  decide

/-- C6 amended: in `ActiveObject` the handle slot is written only by the
owning side — no task-thread operation (loop iteration, exit path,
`mark_as_done`) touches it; in `Component` the only task-thread write to
the handle slot is the single final clear the exiting thread performs
just before deleting itself (loop iterations and the semaphore give
preserve it). -/
theorem C6_handle_writer (s : AOState) (sc : CompState) (b : Bool) :
    (AO.loopIter s b).task_handle = s.task_handle ∧
    (AO.taskExit s).task_handle = s.task_handle ∧
    (AO.mark_as_done s).task_handle = s.task_handle ∧
    (Comp.loopIter sc b).task_handle = sc.task_handle ∧
    (Comp.taskSignal sc).task_handle = sc.task_handle ∧
    (Comp.taskClearHandle sc).task_handle = false :=
  ⟨rfl, rfl, rfl, rfl, rfl, rfl⟩

/-- C9: an `ActiveObject` is reusable after a full join.  From a fresh
object, a successful `start()` (both creations succeeding), a task run
that self-reports done followed by the task-wrapper exit path, and a
successful `join()` — which clears both the task-handle and the
join-semaphore guard — a second `start()` is accepted exactly as from
the idle state, returning true when the creations succeed, since the
only precondition `start()` checks is the absence of the task handle. -/
theorem C9_reusable_after_join (nm : List Nat) :
    (AO.start (AOState.mk0 nm) true true).1 = true ∧
    (∃ s3, AO.join (AO.taskExit (AO.loopIter (AO.start (AOState.mk0 nm) true true).2 true)) =
        some (true, s3) ∧
      s3.task_handle = false ∧ s3.join_sem = false ∧
      AO.start s3 true true =
        (true, ⟨true, true, s3.sem_given, s3.done, s3.threads + 1, s3.name⟩)) :=
  ⟨rfl, ⟨⟨false, false, false, true, 0, AO.trimName nm⟩, rfl, rfl, rfl, rfl⟩⟩

/-- Zeros appended after a byte list do not extend the prefix a
null-terminated read returns, because the predicate rejects the very
first appended zero. -/
theorem takeWhile_append_zeros (p : Nat → Bool) (hp : p 0 = false)
    (xs : List Nat) (k : Nat) :
    (xs ++ List.replicate k 0).takeWhile p = xs.takeWhile p := by
  induction xs with
  | nil =>
    cases k with
    | zero => rfl
    | succ m => simp [List.replicate_succ, List.takeWhile_cons, hp]
  | cons a tl ih =>
    simp only [List.cons_append, List.takeWhile_cons, ih]

/-- C10 counterexample: for the supplied name `['a', '\0', 'b']`
(fewer than 31 characters, so the claim says it is stored unchanged and
returned unchanged), the stored array does hold those three characters
followed by a terminator, but `get_name()` — a `string_view` over the
array — stops at the embedded null and returns only `['a']`, not the
claimed three-character string. -/
theorem C10_counterexample :
    (AOState.mk0 [97, 0, 98]).name.take 4 = [97, 0, 98, 0] ∧
    AO.get_name (AOState.mk0 [97, 0, 98]) ≠ [97, 0, 98] ∧
    AO.get_name (AOState.mk0 [97, 0, 98]) = [97] := by
  decide

/-- C10 amended: for every construction-time name, both wrappers store
the first `min(length, 31)` characters followed by a null terminator in
their 32-byte array (the remaining bytes zero), identically in
`ActiveObject` and `Component` (the latter's length constant modelled
from the spec); `get_name()` returns the stored characters up to the
first null — which equals the possibly-truncated input exactly when the
copied prefix contains no null byte, names of 32 or more characters
being silently truncated to 31. -/
theorem C10_name_truncation (nm : List Nat)
    (hz : (0 : Nat) ∉ nm.take (min nm.length (AO.kMaxComponentNameLength - 1))) :
    (AO.trimName nm).take (min nm.length (AO.kMaxComponentNameLength - 1) + 1) =
      nm.take (min nm.length (AO.kMaxComponentNameLength - 1)) ++ [0] ∧
    (AO.trimName nm).length = AO.kMaxComponentNameLength ∧
    Comp.trimName nm = AO.trimName nm ∧
    Comp.get_name (CompState.mk0 nm false) = AO.get_name (AOState.mk0 nm) ∧
    AO.get_name (AOState.mk0 nm) =
      nm.take (min nm.length (AO.kMaxComponentNameLength - 1)) := by
  have hcl : min nm.length (AO.kMaxComponentNameLength - 1) ≤ nm.length :=
    Nat.min_le_left _ _
  have hlen : (nm.take (min nm.length (AO.kMaxComponentNameLength - 1))).length =
      min nm.length (AO.kMaxComponentNameLength - 1) := by
    rw [List.length_take]
    omega
  refine ⟨?_, ?_, rfl, rfl, ?_⟩
  · rw [AO.trimName]
    have h1 : min nm.length (AO.kMaxComponentNameLength - 1) + 1 =
        (nm.take (min nm.length (AO.kMaxComponentNameLength - 1))).length + 1 := by omega
    rw [h1, List.take_append]
    have h2 : AO.kMaxComponentNameLength - min nm.length (AO.kMaxComponentNameLength - 1) =
        (AO.kMaxComponentNameLength - min nm.length (AO.kMaxComponentNameLength - 1) - 1) + 1 := by
      rw [AO.kMaxComponentNameLength]
      omega
    rw [h2, List.replicate_succ]
    simp
  · rw [AO.trimName]
    rw [List.length_append, List.length_replicate, hlen]
    rw [AO.kMaxComponentNameLength]
    omega
  · rw [AO.get_name, AOState.mk0, AO.trimName]
    rw [takeWhile_append_zeros _ (by decide)]
    rw [List.takeWhile_eq_self_iff.mpr]
    intro a ha
    simp only [ne_eq, decide_eq_true_eq]
    intro h0
    subst h0
    exact hz ha

/-- C10 witness: the truncation facts evaluated on the two-character
name `['h', 'i']`, whose copied prefix contains no null byte. -/
theorem C10_name_truncation_witness :
    ((0 : Nat) ∉ ([104, 105] : List Nat).take
      (min ([104, 105] : List Nat).length (AO.kMaxComponentNameLength - 1))) ∧
    ((AO.trimName [104, 105]).take
        (min ([104, 105] : List Nat).length (AO.kMaxComponentNameLength - 1) + 1) =
      ([104, 105] : List Nat).take
        (min ([104, 105] : List Nat).length (AO.kMaxComponentNameLength - 1)) ++ [0] ∧
    (AO.trimName [104, 105]).length = AO.kMaxComponentNameLength ∧
    Comp.trimName [104, 105] = AO.trimName [104, 105] ∧
    Comp.get_name (CompState.mk0 [104, 105] false) = AO.get_name (AOState.mk0 [104, 105]) ∧
    AO.get_name (AOState.mk0 [104, 105]) =
      ([104, 105] : List Nat).take
        (min ([104, 105] : List Nat).length (AO.kMaxComponentNameLength - 1))) :=
  ⟨by decide, C10_name_truncation [104, 105] (by decide)⟩
